import Mathlib

/-!
Verification development for `projeto-final-nexa.py`, a single-script
Streamlit application ("Agente Fiscal Inteligente").  The script is
re-executed on every UI interaction; its state lives in
`st.session_state`.  We embed the data the script manipulates (the
uploaded invoice table, the chat transcript, the session flags), the
dashboard aggregates, and one full re-execution of the script as a pure
function from the previous session state, the widget inputs, and the
outcomes of the external library calls (file parsing, agent
construction, agent invocation) to the next session state plus a record
of what was rendered.
-/

/-- One row of the uploaded invoice table, with the columns the
dashboard reads: `NATUREZA DA OPERAÇÃO`, `VALOR TOTAL`, `NÚMERO`,
`NOME DESTINATÁRIO`, `UF DESTINATÁRIO`. -/
structure Row where
  natureza_da_operacao : String
  valor_total : ℚ
  numero : String
  nome_destinatario : String
  uf_destinatario : String
deriving DecidableEq, Repr

/-- A dataframe is a list of rows. -/
abbrev DataFrame := List Row

/-- Upper-case every character of a string (model of case-folding used
by `str.contains(..., case=False)`). -/
def strUpper (s : String) : String :=
  String.mk (s.data.map Char.toUpper)

/-- `listStarts hay nd` holds when `nd` is an initial segment of `hay`. -/
def listStarts : List Char → List Char → Bool
  | _, [] => true
  | [], _ :: _ => false
  | a :: hs, b :: ns => a == b && listStarts hs ns

/-- `listHasSub hay nd` holds when `nd` occurs contiguously in `hay`. -/
def listHasSub : List Char → List Char → Bool
  | [], nd => nd.isEmpty
  | a :: t, nd => listStarts (a :: t) nd || listHasSub t nd

/-- Case-insensitive substring test: embedding of
`series.str.contains(pat, case=False)` applied to one cell. -/
def containsCI (hay pat : String) : Bool :=
  listHasSub (strUpper hay).data (strUpper pat).data

/-- Line 89: `df_vendas = df[df['NATUREZA DA OPERAÇÃO'].str.contains("VENDA", case=False)]`. -/
def df_vendas (df : DataFrame) : DataFrame :=
  df.filter fun r => containsCI r.natureza_da_operacao "VENDA"

/-- Line 92: `faturamento_total = df_vendas['VALOR TOTAL'].sum()`. -/
def faturamento_total (df : DataFrame) : ℚ :=
  ((df_vendas df).map Row.valor_total).sum

/-- Line 93: `num_notas = len(df_vendas['NÚMERO'].unique())`. -/
def num_notas (df : DataFrame) : ℕ :=
  ((df_vendas df).map Row.numero).dedup.length

/-- Line 94: `ticket_medio = faturamento_total / num_notas if num_notas > 0 else 0`. -/
def ticket_medio (df : DataFrame) : ℚ :=
  if num_notas df > 0 then faturamento_total df / (num_notas df : ℚ) else 0

/-- Line 95: `num_clientes = df_vendas['NOME DESTINATÁRIO'].nunique()`. -/
def num_clientes (df : DataFrame) : ℕ :=
  ((df_vendas df).map Row.nome_destinatario).dedup.length

-- Scratch checks of the metric definitions on a tiny table.
def rowA : Row := ⟨"VENDA DE MERCADORIA", 100, "1", "Ana", "SP"⟩
def rowB : Row := ⟨"venda interestadual", 50, "2", "Bruno", "RJ"⟩
def rowC : Row := ⟨"DEVOLUÇÃO", 30, "3", "Ana", "SP"⟩
def rowD : Row := ⟨"Venda balcão", 20, "1", "Ana", "SP"⟩

def dfEx : DataFrame := [rowA, rowB, rowC, rowD]

example : df_vendas dfEx = [rowA, rowB, rowD] := by decide

example : faturamento_total dfEx = 170 := by
  rw [faturamento_total, show df_vendas dfEx = [rowA, rowB, rowD] from by decide]
  norm_num [rowA, rowB, rowD]

example : num_notas dfEx = 2 := by decide
example : num_clientes dfEx = 2 := by decide

example : ticket_medio dfEx = 85 := by
  rw [ticket_medio, if_pos (by decide : num_notas dfEx > 0),
    show num_notas dfEx = 2 from by decide,
    show faturamento_total dfEx = 170 from by
      rw [faturamento_total, show df_vendas dfEx = [rowA, rowB, rowD] from by decide]
      norm_num [rowA, rowB, rowD]]
  norm_num

example : ticket_medio [rowC] = 0 := by
  rw [ticket_medio, if_neg (by decide : ¬ num_notas [rowC] > 0)]

/-! ## Session state and the per-interaction execution of the script -/

/-- A chat message, as stored in `st.session_state.messages`:
a dict with a `role` and a `content` string. -/
structure Message where
  role : String
  content : String
deriving DecidableEq, Repr

/-- The agent object stored in `st.session_state.agent`.  The
`AgentExecutor` itself is external; what the script contributes is the
configuration, in particular the dataframe captured by the
`PythonAstREPLTool` via `locals={"df": st.session_state.df}` (line 138). -/
structure Agent where
  df : Option DataFrame
deriving DecidableEq, Repr

/-- The fields of `st.session_state` the script initialises at lines
33-38 and mutates afterwards. -/
structure SessionState where
  google_api_key : Option String
  tavily_api_key : Option String
  df : Option DataFrame
  agent : Option Agent
  messages : List Message
  uploaded_file_name : Option String
deriving DecidableEq, Repr

/-- A file selected in the uploader widget.  `parseResult` is the
outcome of the external call `pd.read_csv` / `pd.read_excel` on it:
either the parsed table or the text of the raised exception. -/
structure UploadedFile where
  name : String
  parseResult : Except String DataFrame
deriving Repr

/-- Lines 69-81, the upload handler: parse a newly selected file (one
whose name differs from the recorded `uploaded_file_name`); on success
store the table, record the name, clear the agent and the transcript;
on exception render the error and set `df` to `None`.  Returns the new
state and the list of error texts rendered by `st.error`. -/
def uploadStep (s : SessionState) (arquivo : Option UploadedFile) :
    SessionState × List String :=
  match arquivo with
  | none => (s, [])
  | some f =>
    if s.uploaded_file_name ≠ some f.name then
      match f.parseResult with
      | .ok d =>
        ({ s with df := some d, uploaded_file_name := some f.name,
                  agent := none, messages := [] }, [])
      | .error e =>
        ({ s with df := none }, ["Erro ao carregar o arquivo: " ++ e])
    else (s, [])

/-- Lines 122-181, the agent-initialisation block: construct the tools
and the `AgentExecutor`.  The external constructions may raise; on
success the stored agent captures the current dataframe, on exception
the error is rendered and `st.stop()` halts the script run. -/
def agentInitStep (s : SessionState) (ctor : Except String Unit) :
    SessionState × List String × Bool :=
  match ctor with
  | .ok _ => ({ s with agent := some ⟨s.df⟩ }, [], false)
  | .error e => (s, ["Erro ao criar o agente: " ++ e], true)

/-- Lines 199-206: the f-string `prompt_aumentado` built from the three
sidebar company-profile fields and the user's question. -/
def prompt_aumentado (regime : String) (fat : ℚ) (cnae p : String) : String :=
  "\n                    CONTEXTO DA EMPRESA:\n                    - Regime: "
    ++ regime
    ++ "\n                    - Faturamento Anual: R$ "
    ++ toString fat
    ++ "\n                    - CNAE: "
    ++ cnae
    ++ "\n                    \n                    PERGUNTA: "
    ++ p
    ++ "\n                    "

/-- The opening assistant message appended at line 185 when the
transcript is empty. -/
def greetingMsg : Message :=
  ⟨"assistant", "Olá! Sou seu assistente fiscal. Analise o dashboard e me faça uma pergunta."⟩

/-- Result of one chat turn (lines 191-215). -/
structure ChatTurnOut where
  state : SessionState
  errors : List String
  invokeArgs : String × List Message
deriving Repr

/-- Lines 191-215, one chat turn: append the raw prompt to the
transcript, build `prompt_aumentado` and `chat_history` (a copy of the
transcript), call `agent.invoke`; append the reply on success, append
and render an error message on exception. -/
def chatTurn (s : SessionState) (regime : String) (fat : ℚ) (cnae p : String)
    (invoke : String → List Message → Except String String) : ChatTurnOut :=
  let s1 := { s with messages := s.messages ++ [Message.mk "user" p] }
  let inputStr := prompt_aumentado regime fat cnae p
  let hist := s1.messages
  match invoke inputStr hist with
  | .ok out =>
    { state := { s1 with messages := s1.messages ++ [Message.mk "assistant" out] },
      errors := [], invokeArgs := (inputStr, hist) }
  | .error e =>
    let em := "Ocorreu um erro: " ++ e
    { state := { s1 with messages := s1.messages ++ [Message.mk "assistant" em] },
      errors := [em], invokeArgs := (inputStr, hist) }

/-- The widget values read during one script run. -/
structure Inputs where
  google_key_input : String
  tavily_key_input : String
  regime_tributario : String
  faturamento_anual : ℚ
  cnae : String
  arquivo : Option UploadedFile
  chat_input_val : Option String

/-- Outcomes of the external library calls during one run. -/
structure ExtCalls where
  agentCtor : Except String Unit
  agentInvoke : String → List Message → Except String String

/-- The four dashboard KPI values rendered at lines 98-101. -/
structure Metrics where
  faturamento : ℚ
  notas : ℕ
  ticket : ℚ
  clientes : ℕ
deriving DecidableEq, Repr

/-- What one script run produced: the next session state and a record
of what was rendered and which external calls were made. -/
structure RunResult where
  state : SessionState
  errors : List String
  metrics : Option Metrics
  dashboardShown : Bool
  agentInitAttempted : Bool
  chatHistoryRendered : Option (List Message)
  invokeCalled : Option (String × List Message)
  infoShown : Bool
  stopped : Bool

/-- Sidebar, lines 45-54: non-empty API-key text inputs are stored in
the session (empty inputs, Python-falsy, are ignored). -/
def applyKeys (s0 : SessionState) (inp : Inputs) : SessionState :=
  let sa := if inp.google_key_input ≠ "" then
    { s0 with google_api_key := some inp.google_key_input } else s0
  if inp.tavily_key_input ≠ "" then
    { sa with tavily_api_key := some inp.tavily_key_input } else sa

/-- Everything after the sidebar in one script run: the dashboard gate
(line 84) and the agent block (lines 122-217), applied to the state
`s2` left by the upload handler, with `upErrs` the errors it rendered.
Faithful to the file's indentation: the gate guards only the dashboard
and the chat header; the block at line 122 runs whenever
`st.session_state.agent is None`, and the chat logic (lines 183-215)
together with the trailing `else` (line 216) belong to that `if`, not
to the gate. -/
def runMain (s2 : SessionState) (upErrs : List String) (inp : Inputs)
    (ext : ExtCalls) : RunResult :=
  -- line 84: the dashboard gate
  let gate := s2.google_api_key.isSome && s2.tavily_api_key.isSome && s2.df.isSome
  let ms : Option Metrics := if gate then
    (s2.df.map fun d => ⟨faturamento_total d, num_notas d, ticket_medio d, num_clientes d⟩)
    else none
  -- line 122: the agent block, entered iff the stored agent is None
  if s2.agent = none then
    match agentInitStep s2 ext.agentCtor with
    | (s2', errs, true) =>
      ⟨s2', upErrs ++ errs, ms, gate, true, none, none, false, true⟩
    | (s3, errs, false) =>
      -- line 184: greeting when the transcript is empty
      let s4 := if s3.messages = [] then { s3 with messages := [greetingMsg] } else s3
      -- lines 187-189: render the history; line 191: pending chat input
      match inp.chat_input_val with
      | none => ⟨s4, upErrs ++ errs, ms, gate, true, some s4.messages, none, false, false⟩
      | some p =>
        let t := chatTurn s4 inp.regime_tributario inp.faturamento_anual inp.cnae p
          ext.agentInvoke
        ⟨t.state, upErrs ++ errs ++ t.errors, ms, gate, true, some s4.messages,
          some t.invokeArgs, false, false⟩
  else
    -- line 216: the else paired with the agent-is-None test
    ⟨s2, upErrs, ms, gate, false, none, none, true, false⟩

/-- One full top-to-bottom execution of the script, as Streamlit
performs on every UI interaction: sidebar key inputs, the upload
handler, then the main body. -/
def runScript (s0 : SessionState) (inp : Inputs) (ext : ExtCalls) : RunResult :=
  let up := uploadStep (applyKeys s0 inp) inp.arquivo
  runMain up.1 up.2 inp ext

/-- `StrContains hay pat`: `pat` occurs contiguously in `hay`. -/
def StrContains (hay pat : String) : Prop :=
  ∃ u v, hay = u ++ pat ++ v

/-- The spec-side reading of line 89's row filter: the cell under
`NATUREZA DA OPERAÇÃO` contains the substring `VENDA`
case-insensitively (both sides case-folded). -/
def ContainsSubCI (hay pat : String) : Prop :=
  ∃ u v, hay.data.map Char.toUpper = u ++ pat.data.map Char.toUpper ++ v

/-- An interaction whose selected file is new (name differs from the
recorded one) and parses successfully — the condition under which the
upload handler replaces the session state wholesale. -/
def NewUploadOk (s : SessionState) (inp : Inputs) : Prop :=
  ∃ f d, inp.arquivo = some f ∧ s.uploaded_file_name ≠ some f.name
    ∧ f.parseResult = .ok d

/-! ### Concrete states and inputs used in the closed evaluations -/

/-- External calls that all succeed. -/
def extOk : ExtCalls := ⟨.ok (), fun _ _ => .ok "tudo certo"⟩

/-- External calls that all raise. -/
def extFail : ExtCalls := ⟨.error "sem chave", fun _ _ => .error "sem rede"⟩

/-- A session with keys and a loaded table, agent not yet built. -/
def sBase : SessionState :=
  ⟨some "g", some "t", some dfEx, none, [], some "notas.csv"⟩

/-- A session in which the agent has already been constructed and a
conversation exists. -/
def sAgent : SessionState :=
  ⟨some "g", some "t", some dfEx, some ⟨some dfEx⟩,
    [greetingMsg, Message.mk "user" "oi"], some "notas.csv"⟩

/-- A fresh session with nothing configured. -/
def sEmpty : SessionState := ⟨none, none, none, none, [], none⟩

/-- A new file that parses. -/
def fNew : UploadedFile := ⟨"novo.csv", .ok [rowA]⟩

/-- A new file whose parse raises. -/
def fBad : UploadedFile := ⟨"ruim.csv", .error "arquivo corrompido"⟩

/-- A file with the recorded name but different contents. -/
def fSame : UploadedFile := ⟨"notas.csv", .ok [rowB]⟩

/-- An interaction with no upload and no chat input. -/
def inpIdle : Inputs := ⟨"", "", "Simples Nacional", 0, "", none, none⟩

/-- An interaction submitting a chat question. -/
def inpChat : Inputs :=
  ⟨"", "", "Simples Nacional", 0, "", none, some "Qual meu faturamento?"⟩

/-- An interaction submitting a different chat question. -/
def inpChat2 : Inputs :=
  ⟨"", "", "Lucro Presumido", 120000, "4781-4/00", none, some "Quanto devo de imposto?"⟩

/-- An interaction selecting the failing file. -/
def inpUpBad : Inputs := ⟨"", "", "Simples Nacional", 0, "", some fBad, none⟩

/-- An interaction selecting the new parsable file. -/
def inpUpNew : Inputs := ⟨"", "", "Simples Nacional", 0, "", some fNew, none⟩

/-- The arguments the agent receives for the `inpChat` interaction
started from `sBase`. -/
def argsW : String × List Message :=
  (prompt_aumentado "Simples Nacional" 0 "" "Qual meu faturamento?",
    [greetingMsg, Message.mk "user" "Qual meu faturamento?"])

/-- The arguments the agent receives for the `inpChat2` interaction
started from `sBase`. -/
def argsW2 : String × List Message :=
  (prompt_aumentado "Lucro Presumido" 120000 "4781-4/00" "Quanto devo de imposto?",
    [greetingMsg, Message.mk "user" "Quanto devo de imposto?"])

/-! ## Frame lemmas for the step functions -/

theorem applyKeys_df (s : SessionState) (inp : Inputs) :
    (applyKeys s inp).df = s.df ∧ (applyKeys s inp).agent = s.agent
    ∧ (applyKeys s inp).messages = s.messages
    ∧ (applyKeys s inp).uploaded_file_name = s.uploaded_file_name := by
  unfold applyKeys
  split <;> split <;> simp

theorem chatTurn_state (s : SessionState) (regime : String) (fat : ℚ) (cnae p : String)
    (invoke : String → List Message → Except String String) :
    ∃ out : String,
      (chatTurn s regime fat cnae p invoke).state =
        { s with messages := s.messages ++ [Message.mk "user" p, Message.mk "assistant" out] } := by
  unfold chatTurn
  cases h : invoke (prompt_aumentado regime fat cnae p) (s.messages ++ [Message.mk "user" p]) with
  | ok out => exact ⟨out, by simp [h]⟩
  | error e => exact ⟨"Ocorreu um erro: " ++ e, by simp [h]⟩

theorem chatTurn_df (s : SessionState) (regime : String) (fat : ℚ) (cnae p : String)
    (invoke : String → List Message → Except String String) :
    (chatTurn s regime fat cnae p invoke).state.df = s.df := by
  obtain ⟨out, h⟩ := chatTurn_state s regime fat cnae p invoke
  rw [h]

theorem chatTurn_agent (s : SessionState) (regime : String) (fat : ℚ) (cnae p : String)
    (invoke : String → List Message → Except String String) :
    (chatTurn s regime fat cnae p invoke).state.agent = s.agent := by
  obtain ⟨out, h⟩ := chatTurn_state s regime fat cnae p invoke
  rw [h]

theorem chatTurn_fname (s : SessionState) (regime : String) (fat : ℚ) (cnae p : String)
    (invoke : String → List Message → Except String String) :
    (chatTurn s regime fat cnae p invoke).state.uploaded_file_name = s.uploaded_file_name := by
  obtain ⟨out, h⟩ := chatTurn_state s regime fat cnae p invoke
  rw [h]

theorem runMain_state_df (s2 : SessionState) (upErrs : List String) (inp : Inputs)
    (ext : ExtCalls) : (runMain s2 upErrs inp ext).state.df = s2.df := by
  unfold runMain
  split
  · cases hc : ext.agentCtor with
    | error e => simp [agentInitStep, hc]
    | ok u =>
      simp only [agentInitStep, hc]
      split
      · split <;> rfl
      · simp only [chatTurn_df]; split <;> rfl
  · rfl

theorem runMain_state_fname (s2 : SessionState) (upErrs : List String) (inp : Inputs)
    (ext : ExtCalls) :
    (runMain s2 upErrs inp ext).state.uploaded_file_name = s2.uploaded_file_name := by
  unfold runMain
  split
  · cases hc : ext.agentCtor with
    | error e => simp [agentInitStep, hc]
    | ok u =>
      simp only [agentInitStep, hc]
      split
      · split <;> rfl
      · simp only [chatTurn_fname]; split <;> rfl
  · rfl

theorem chatTurn_invokeArgs (s : SessionState) (regime : String) (fat : ℚ) (cnae p : String)
    (invoke : String → List Message → Except String String) :
    (chatTurn s regime fat cnae p invoke).invokeArgs =
      (prompt_aumentado regime fat cnae p, s.messages ++ [Message.mk "user" p]) := by
  unfold chatTurn
  cases h : invoke (prompt_aumentado regime fat cnae p) (s.messages ++ [Message.mk "user" p])
    <;> simp [h]

theorem runMain_messages (s2 : SessionState) (upErrs : List String) (inp : Inputs)
    (ext : ExtCalls) :
    ∃ t, (runMain s2 upErrs inp ext).state.messages = s2.messages ++ t := by
  unfold runMain
  split
  · cases hc : ext.agentCtor with
    | error e => exact ⟨[], by simp [agentInitStep, hc]⟩
    | ok u =>
      simp only [agentInitStep, hc]
      split
      · split
        · rename_i hm
          exact ⟨[greetingMsg], by simp [hm]⟩
        · exact ⟨[], by simp⟩
      · rename_i p heq
        split
        · rename_i hm
          obtain ⟨out, hout⟩ := chatTurn_state
            { s2 with agent := some ⟨s2.df⟩, messages := [greetingMsg] }
            inp.regime_tributario inp.faturamento_anual inp.cnae p ext.agentInvoke
          refine ⟨[greetingMsg, Message.mk "user" p, Message.mk "assistant" out], ?_⟩
          rw [hout]
          simp [hm]
        · obtain ⟨out, hout⟩ := chatTurn_state { s2 with agent := some ⟨s2.df⟩ }
            inp.regime_tributario inp.faturamento_anual inp.cnae p ext.agentInvoke
          refine ⟨[Message.mk "user" p, Message.mk "assistant" out], ?_⟩
          rw [hout]
  · exact ⟨[], by simp⟩

theorem runMain_invokeCalled_eq (s2 : SessionState) (upErrs : List String) (inp : Inputs)
    (ext : ExtCalls) :
    (runMain s2 upErrs inp ext).invokeCalled = none
    ∨ ∃ p pre, inp.chat_input_val = some p
        ∧ (runMain s2 upErrs inp ext).invokeCalled =
            some (prompt_aumentado inp.regime_tributario inp.faturamento_anual inp.cnae p,
              pre ++ [Message.mk "user" p]) := by
  unfold runMain
  split
  · cases hc : ext.agentCtor with
    | error e => exact Or.inl (by simp [agentInitStep, hc])
    | ok u =>
      simp only [agentInitStep, hc]
      split
      · exact Or.inl (by simp)
      · rename_i p heq
        refine Or.inr ⟨p, (if s2.messages = [] then
            { s2 with agent := some ⟨s2.df⟩, messages := [greetingMsg] }
          else { s2 with agent := some ⟨s2.df⟩ }).messages, heq, ?_⟩
        simp only [chatTurn_invokeArgs]
  · exact Or.inl (by simp)

theorem runMain_invoke_spec (s2 : SessionState) (upErrs : List String) (inp : Inputs)
    (ext : ExtCalls) (args : String × List Message)
    (h : (runMain s2 upErrs inp ext).invokeCalled = some args) :
    ∃ p pre, inp.chat_input_val = some p
      ∧ args.1 = prompt_aumentado inp.regime_tributario inp.faturamento_anual inp.cnae p
      ∧ args.2 = pre ++ [Message.mk "user" p] := by
  rcases runMain_invokeCalled_eq s2 upErrs inp ext with hn | ⟨p, pre, hp, he⟩
  · rw [hn] at h
    exact absurd h (by simp)
  · rw [he] at h
    rcases Option.some_inj.mp h with rfl
    exact ⟨p, pre, hp, rfl, rfl⟩

/-! ## Characterisation of the executable substring test -/

theorem listStarts_iff (nd hay : List Char) :
    listStarts hay nd = true ↔ ∃ t, hay = nd ++ t := by
  induction nd generalizing hay with
  | nil =>
    cases hay <;> simp [listStarts]
  | cons b ns ih =>
    cases hay with
    | nil => simp [listStarts]
    | cons a hs =>
      simp only [listStarts, Bool.and_eq_true, beq_iff_eq, ih, List.cons_append,
        List.cons.injEq]
      constructor
      · rintro ⟨rfl, t, rfl⟩
        exact ⟨t, rfl, rfl⟩
      · rintro ⟨t, rfl, rfl⟩
        exact ⟨rfl, t, rfl⟩

theorem listHasSub_iff (nd hay : List Char) :
    listHasSub hay nd = true ↔ ∃ u v, hay = u ++ nd ++ v := by
  induction hay with
  | nil =>
    simp only [listHasSub, List.isEmpty_iff]
    constructor
    · rintro rfl
      exact ⟨[], [], rfl⟩
    · rintro ⟨u, v, h⟩
      rcases List.append_eq_nil.mp h.symm with ⟨h1, h2⟩
      exact (List.append_eq_nil.mp h1).2
  | cons a t ih =>
    simp only [listHasSub, Bool.or_eq_true, listStarts_iff, ih]
    constructor
    · rintro (⟨v, hv⟩ | ⟨u, v, hv⟩)
      · exact ⟨[], v, by simpa using hv⟩
      · exact ⟨a :: u, v, by simp [hv]⟩
    · rintro ⟨u, v, h⟩
      cases u with
      | nil =>
        exact Or.inl ⟨v, by simpa using h⟩
      | cons x u =>
        rcases List.cons.injEq .. ▸ h with ⟨rfl, h2⟩
        exact Or.inr ⟨u, v, h2⟩

theorem containsCI_iff (hay pat : String) :
    containsCI hay pat = true ↔ ContainsSubCI hay pat := by
  unfold containsCI ContainsSubCI strUpper
  exact listHasSub_iff _ _

instance instDecContainsSubCI (hay pat : String) : Decidable (ContainsSubCI hay pat) :=
  decidable_of_iff _ (containsCI_iff hay pat)

theorem decide_ContainsSubCI (hay pat : String) :
    decide (ContainsSubCI hay pat) = containsCI hay pat := by
  rw [Bool.eq_iff_iff]
  simp [containsCI_iff]

/-! ## Helper lemmas about the upload handler and the sidebar -/

theorem uploadStep_none (s : SessionState) : uploadStep s none = (s, []) := rfl

theorem uploadStep_same (s : SessionState) (f : UploadedFile)
    (h : s.uploaded_file_name = some f.name) : uploadStep s (some f) = (s, []) := by
  unfold uploadStep
  simp [h]

theorem uploadStep_ok (s : SessionState) (f : UploadedFile) (d : DataFrame)
    (hn : s.uploaded_file_name ≠ some f.name) (hp : f.parseResult = .ok d) :
    uploadStep s (some f) =
      ({ s with df := some d, uploaded_file_name := some f.name,
                agent := none, messages := [] }, []) := by
  unfold uploadStep
  simp [hn, hp]

theorem uploadStep_err (s : SessionState) (f : UploadedFile) (e : String)
    (hn : s.uploaded_file_name ≠ some f.name) (hp : f.parseResult = .error e) :
    uploadStep s (some f) =
      ({ s with df := none }, ["Erro ao carregar o arquivo: " ++ e]) := by
  unfold uploadStep
  simp [hn, hp]

theorem applyKeys_messages_swap (s : SessionState) (ms : List Message) (inp : Inputs) :
    applyKeys { s with messages := ms } inp = { applyKeys s inp with messages := ms } := by
  unfold applyKeys
  by_cases hg : inp.google_key_input ≠ "" <;> by_cases ht : inp.tavily_key_input ≠ "" <;>
    simp [hg, ht]

/-- Where each sidebar field sits inside `prompt_aumentado`: the regime,
the revenue rendering, the CNAE and the question each occur contiguously
in the forwarded string. -/
theorem prompt_aumentado_parts (regime : String) (fat : ℚ) (cnae p : String) :
    StrContains (prompt_aumentado regime fat cnae p) regime
    ∧ StrContains (prompt_aumentado regime fat cnae p) (toString fat)
    ∧ StrContains (prompt_aumentado regime fat cnae p) cnae
    ∧ StrContains (prompt_aumentado regime fat cnae p) p := by
  refine ⟨⟨"\n                    CONTEXTO DA EMPRESA:\n                    - Regime: ",
      "\n                    - Faturamento Anual: R$ " ++ toString fat
        ++ "\n                    - CNAE: " ++ cnae
        ++ "\n                    \n                    PERGUNTA: " ++ p
        ++ "\n                    ", ?_⟩,
    ⟨"\n                    CONTEXTO DA EMPRESA:\n                    - Regime: "
        ++ regime ++ "\n                    - Faturamento Anual: R$ ",
      "\n                    - CNAE: " ++ cnae
        ++ "\n                    \n                    PERGUNTA: " ++ p
        ++ "\n                    ", ?_⟩,
    ⟨"\n                    CONTEXTO DA EMPRESA:\n                    - Regime: "
        ++ regime ++ "\n                    - Faturamento Anual: R$ " ++ toString fat
        ++ "\n                    - CNAE: ",
      "\n                    \n                    PERGUNTA: " ++ p
        ++ "\n                    ", ?_⟩,
    ⟨"\n                    CONTEXTO DA EMPRESA:\n                    - Regime: "
        ++ regime ++ "\n                    - Faturamento Anual: R$ " ++ toString fat
        ++ "\n                    - CNAE: " ++ cnae
        ++ "\n                    \n                    PERGUNTA: ",
      "\n                    ", ?_⟩⟩ <;>
  simp [prompt_aumentado, String.append_assoc]

/-! ## The claims -/

/-- C1: for every uploaded table with the expected columns, the dashboard
metrics equal direct aggregates over the rows whose `NATUREZA DA OPERAÇÃO`
contains the substring `VENDA` case-insensitively: `faturamento_total` is
the sum of `VALOR TOTAL` over those rows, `num_notas` the number of
distinct values of `NÚMERO` among them, and `num_clientes` the number of
distinct values of `NOME DESTINATÁRIO` among them. -/
theorem dashboard_metrics_eq_direct_aggregates (df : DataFrame) :
    faturamento_total df =
      ((df.filter fun r => decide (ContainsSubCI r.natureza_da_operacao "VENDA")).map
        Row.valor_total).sum
    ∧ num_notas df =
      ((df.filter fun r => decide (ContainsSubCI r.natureza_da_operacao "VENDA")).map
        Row.numero).toFinset.card
    ∧ num_clientes df =
      ((df.filter fun r => decide (ContainsSubCI r.natureza_da_operacao "VENDA")).map
        Row.nome_destinatario).toFinset.card := by
  have hf : (df.filter fun r => decide (ContainsSubCI r.natureza_da_operacao "VENDA"))
      = df_vendas df := by
    unfold df_vendas
    congr 1
    funext r
    exact decide_ContainsSubCI _ _
  refine ⟨?_, ?_, ?_⟩ <;> rw [hf]
  · rfl
  · rw [List.card_toFinset]; rfl
  · rw [List.card_toFinset]; rfl

/-- C8: the ticket-médio computation never divides by zero: when
`num_notas` is positive it equals `faturamento_total / num_notas` (and
multiplying back recovers the revenue), and when `num_notas` is zero it
equals 0. -/
theorem ticket_medio_no_div_by_zero (df : DataFrame) :
    (num_notas df = 0 → ticket_medio df = 0)
    ∧ (0 < num_notas df →
        ticket_medio df = faturamento_total df / (num_notas df : ℚ)
        ∧ ticket_medio df * (num_notas df : ℚ) = faturamento_total df) := by
  constructor
  · intro h
    rw [ticket_medio, if_neg (by omega)]
  · intro h
    rw [ticket_medio, if_pos h]
    refine ⟨rfl, ?_⟩
    exact div_mul_cancel₀ _ (Nat.cast_ne_zero.mpr h.ne')

/-- Witness for C8 at the concrete tables `dfEx` (two distinct sale
numbers) and `[rowC]` (no sale rows). -/
theorem ticket_medio_no_div_by_zero_witness :
    (0 < num_notas dfEx
      ∧ ticket_medio dfEx = faturamento_total dfEx / (num_notas dfEx : ℚ))
    ∧ (num_notas [rowC] = 0 ∧ ticket_medio [rowC] = 0) :=
  ⟨⟨by decide, ((ticket_medio_no_div_by_zero dfEx).2 (by decide)).1⟩,
   ⟨by decide, (ticket_medio_no_div_by_zero [rowC]).1 (by decide)⟩⟩

/-- C9: a selected upload whose name equals the recorded
`uploaded_file_name` is not parsed: the upload handler returns the
session state — dataframe, agent and transcript included — unchanged
and renders nothing, whatever the file's contents. -/
theorem same_name_upload_leaves_state_unchanged (s : SessionState) (f : UploadedFile)
    (h : s.uploaded_file_name = some f.name) :
    uploadStep s (some f) = (s, []) := by
  unfold uploadStep
  simp [h]

/-- Witness for C9: re-selecting `notas.csv` with different contents
(`fSame` parses to a different table) changes nothing. -/
theorem same_name_upload_witness :
    sBase.uploaded_file_name = some fSame.name
    ∧ uploadStep sBase (some fSame) = (sBase, []) :=
  ⟨rfl, same_name_upload_leaves_state_unchanged sBase fSame rfl⟩

/-- C7: on every successful upload of a new file the session is reset:
the stored dataframe becomes the newly parsed table, the agent is
cleared to `None`, the transcript is emptied and the file name recorded,
while the two stored API keys are unchanged. -/
theorem successful_upload_resets_session (s : SessionState) (f : UploadedFile)
    (d : DataFrame) (hn : s.uploaded_file_name ≠ some f.name)
    (hp : f.parseResult = .ok d) :
    (uploadStep s (some f)).1.df = some d
    ∧ (uploadStep s (some f)).1.agent = none
    ∧ (uploadStep s (some f)).1.messages = []
    ∧ (uploadStep s (some f)).1.uploaded_file_name = some f.name
    ∧ (uploadStep s (some f)).1.google_api_key = s.google_api_key
    ∧ (uploadStep s (some f)).1.tavily_api_key = s.tavily_api_key := by
  rw [uploadStep_ok s f d hn hp]
  exact ⟨rfl, rfl, rfl, rfl, rfl, rfl⟩

/-- Witness for C7: uploading `novo.csv` over the live session `sAgent`
clears the agent and the conversation. -/
theorem successful_upload_resets_session_witness :
    sAgent.uploaded_file_name ≠ some fNew.name
    ∧ fNew.parseResult = Except.ok [rowA]
    ∧ (uploadStep sAgent (some fNew)).1.agent = none
    ∧ (uploadStep sAgent (some fNew)).1.messages = [] :=
  ⟨by decide, rfl,
    (successful_upload_resets_session sAgent fNew [rowA] (by decide) rfl).2.1,
    (successful_upload_resets_session sAgent fNew [rowA] (by decide) rfl).2.2.1⟩

/-- C2 counterexample: the claim that every handler leaves all prior
session state (df, agent, messages, uploaded_file_name) unchanged is
false: at `sBase`, whose dataframe is loaded, a failing parse of
`fBad` renders the error text but resets `df` to `None`. -/
theorem parse_failure_changes_df :
    (uploadStep sBase (some fBad)).2 = ["Erro ao carregar o arquivo: arquivo corrompido"]
    ∧ (uploadStep sBase (some fBad)).1.df ≠ sBase.df := by
  decide

/-- C2 (amended): each wrapped external call renders the raised
exception's text on failure; the agent-construction handler leaves the
whole state unchanged (and halts the run); the file-parse handler
leaves agent, transcript and recorded file name unchanged but resets
the dataframe to `None`; the invocation handler leaves dataframe,
agent and recorded file name unchanged but appends the user's prompt
and an assistant-role error message to the transcript. -/
theorem handlers_render_error_touch_only_reported_state
    (s : SessionState) (f : UploadedFile) (ep ec ei : String)
    (regime : String) (fat : ℚ) (cnae p : String)
    (hn : s.uploaded_file_name ≠ some f.name) (hp : f.parseResult = .error ep) :
    (uploadStep s (some f)).2 = ["Erro ao carregar o arquivo: " ++ ep]
    ∧ (uploadStep s (some f)).1 = { s with df := none }
    ∧ agentInitStep s (.error ec) = (s, ["Erro ao criar o agente: " ++ ec], true)
    ∧ ∀ invoke : String → List Message → Except String String,
        invoke (prompt_aumentado regime fat cnae p) (s.messages ++ [Message.mk "user" p])
          = .error ei →
        (chatTurn s regime fat cnae p invoke).errors = ["Ocorreu um erro: " ++ ei]
        ∧ (chatTurn s regime fat cnae p invoke).state =
            { s with messages := s.messages
                ++ [Message.mk "user" p,
                    Message.mk "assistant" ("Ocorreu um erro: " ++ ei)] } := by
  refine ⟨?_, ?_, rfl, ?_⟩
  · rw [uploadStep_err s f ep hn hp]
  · rw [uploadStep_err s f ep hn hp]
  · intro invoke hinv
    unfold chatTurn
    simp only [hinv]
    exact ⟨trivial, by simp⟩

/-- Witness for the amended C2: the failing parse of `fBad` over
`sBase` and a failing invocation over `sAgent`. -/
theorem handlers_render_error_witness :
    sBase.uploaded_file_name ≠ some fBad.name
    ∧ fBad.parseResult = Except.error "arquivo corrompido"
    ∧ (uploadStep sBase (some fBad)).2 = ["Erro ao carregar o arquivo: arquivo corrompido"]
    ∧ (chatTurn sBase "Simples Nacional" 0 "" "oi" extFail.agentInvoke).errors
        = ["Ocorreu um erro: sem rede"] :=
  ⟨by decide, rfl,
    (handlers_render_error_touch_only_reported_state sBase fBad "arquivo corrompido"
      "sem chave" "sem rede" "Simples Nacional" 0 "" "oi" (by decide) rfl).1,
    ((handlers_render_error_touch_only_reported_state sBase fBad "arquivo corrompido"
      "sem chave" "sem rede" "Simples Nacional" 0 "" "oi" (by decide) rfl).2.2.2
      extFail.agentInvoke rfl).1⟩

/-- C4 counterexample: the stored dataframe is not replaced only by a
later successful upload: an interaction over the live session `sAgent`
whose newly selected file fails to parse replaces the loaded table with
`None`. -/
theorem failed_upload_also_replaces_df :
    (runScript sAgent inpUpBad extOk).state.df = none ∧ sAgent.df = some dfEx := by
  decide

/-- C4 (amended): after a successful parse the stored dataframe is
never modified in place — every interaction either leaves `df`
untouched (when no file is selected, or the selected name matches the
recorded one), or replaces it wholesale: by the newly parsed table when
a new file parses, or by `None` when the parse of a new file raises. -/
theorem df_replaced_only_wholesale (s : SessionState) (inp : Inputs) (ext : ExtCalls) :
    ((runScript s inp ext).state.df = s.df
      ∧ (inp.arquivo = none
          ∨ ∃ f, inp.arquivo = some f ∧ s.uploaded_file_name = some f.name))
    ∨ (∃ f d, inp.arquivo = some f ∧ s.uploaded_file_name ≠ some f.name
        ∧ f.parseResult = .ok d ∧ (runScript s inp ext).state.df = some d)
    ∨ (∃ f e, inp.arquivo = some f ∧ s.uploaded_file_name ≠ some f.name
        ∧ f.parseResult = .error e ∧ (runScript s inp ext).state.df = none) := by
  have hrs : (runScript s inp ext).state.df
      = (uploadStep (applyKeys s inp) inp.arquivo).1.df := by
    unfold runScript
    exact runMain_state_df _ _ _ _
  have hk := applyKeys_df s inp
  rw [hrs]
  cases ha : inp.arquivo with
  | none =>
    left
    refine ⟨?_, Or.inl rfl⟩
    rw [uploadStep_none]
    exact hk.1
  | some f =>
    by_cases hn : s.uploaded_file_name = some f.name
    · left
      refine ⟨?_, Or.inr ⟨f, rfl, hn⟩⟩
      rw [uploadStep_same _ f (by rw [hk.2.2.2]; exact hn)]
      exact hk.1
    · cases hp : f.parseResult with
      | ok d =>
        right; left
        exact ⟨f, d, rfl, hn, hp, by
          rw [uploadStep_ok _ f d (by rw [hk.2.2.2]; exact hn) hp]⟩
      | error e =>
        right; right
        exact ⟨f, e, rfl, hn, hp, by
          rw [uploadStep_err _ f e (by rw [hk.2.2.2]; exact hn) hp]⟩

/-- C5: the chat transcript is append-only: on any interaction that is
not a successful new-file upload the resulting transcript extends the
previous one, and on a successful new-file upload it is replaced
wholesale — the resulting transcript does not depend on the previous
one at all. -/
theorem transcript_append_only_or_cleared (s : SessionState) (inp : Inputs)
    (ext : ExtCalls) :
    (¬ NewUploadOk s inp →
      ∃ t, (runScript s inp ext).state.messages = s.messages ++ t)
    ∧ (NewUploadOk s inp → ∀ ms,
        (runScript { s with messages := ms } inp ext).state.messages
          = (runScript s inp ext).state.messages) := by
  have hk := applyKeys_df s inp
  constructor
  · intro hno
    unfold runScript
    obtain ⟨t, ht⟩ := runMain_messages (uploadStep (applyKeys s inp) inp.arquivo).1
      (uploadStep (applyKeys s inp) inp.arquivo).2 inp ext
    have hm : (uploadStep (applyKeys s inp) inp.arquivo).1.messages = s.messages := by
      cases ha : inp.arquivo with
      | none => rw [uploadStep_none]; exact hk.2.2.1
      | some f =>
        by_cases hn : s.uploaded_file_name = some f.name
        · rw [uploadStep_same _ f (by rw [hk.2.2.2]; exact hn)]
          exact hk.2.2.1
        · cases hp : f.parseResult with
          | ok d => exact absurd ⟨f, d, ha, hn, hp⟩ hno
          | error e =>
            rw [uploadStep_err _ f e (by rw [hk.2.2.2]; exact hn) hp]
            exact hk.2.2.1
    exact ⟨t, by rw [ht, hm]⟩
  · rintro ⟨f, d, ha, hn, hp⟩ ms
    have hn2 : (applyKeys s inp).uploaded_file_name ≠ some f.name := by
      rw [hk.2.2.2]; exact hn
    have hn1 : ({ applyKeys s inp with messages := ms } : SessionState).uploaded_file_name
        ≠ some f.name := hn2
    have h1 : uploadStep (applyKeys { s with messages := ms } inp) inp.arquivo
        = uploadStep (applyKeys s inp) inp.arquivo := by
      rw [applyKeys_messages_swap, ha, uploadStep_ok _ f d hn1 hp,
        uploadStep_ok _ f d hn2 hp]
    unfold runScript
    rw [h1]

/-- Witness for C5: a chat turn over `sAgent` only appends, and after
uploading `fNew` the result is the same whatever transcript the
session held before. -/
theorem transcript_append_only_witness :
    (∃ t, (runScript sAgent inpChat extOk).state.messages = sAgent.messages ++ t)
    ∧ (runScript { sAgent with messages := [Message.mk "user" "x"] } inpUpNew
        extOk).state.messages = (runScript sAgent inpUpNew extOk).state.messages :=
  ⟨(transcript_append_only_or_cleared sAgent inpChat extOk).1
      (by rintro ⟨f, d, ha, -, -⟩; simp [inpChat] at ha),
   (transcript_append_only_or_cleared sAgent inpUpNew extOk).2
      ⟨fNew, [rowA], rfl, by decide, rfl⟩ [Message.mk "user" "x"]⟩

/-- C6: whenever an interaction forwards a string to the hosted agent,
that string contains — verbatim, whatever the question was — the three
sidebar company-profile fields: the tax-regime selection, the rendered
annual revenue and the CNAE code. -/
theorem company_profile_sent_every_turn (s : SessionState) (inp : Inputs)
    (ext : ExtCalls) (args : String × List Message)
    (h : (runScript s inp ext).invokeCalled = some args) :
    StrContains args.1 inp.regime_tributario
    ∧ StrContains args.1 (toString inp.faturamento_anual)
    ∧ StrContains args.1 inp.cnae := by
  unfold runScript at h
  obtain ⟨p, pre, hp, h1, h2⟩ := runMain_invoke_spec _ _ inp ext args h
  rw [h1]
  exact ⟨(prompt_aumentado_parts _ _ _ _).1,
    (prompt_aumentado_parts _ _ _ _).2.1,
    (prompt_aumentado_parts _ _ _ _).2.2.1⟩

/-- Witness for C6: the `inpChat` interaction from `sBase` invokes the
agent with `argsW`, whose input string carries the regime selection. -/
theorem company_profile_sent_witness :
    (runScript sBase inpChat extOk).invokeCalled = some argsW
    ∧ StrContains argsW.1 "Simples Nacional" :=
  ⟨rfl, (company_profile_sent_every_turn sBase inpChat extOk argsW rfl).1⟩

/-- C10: on every chat turn the raw question is appended to the
transcript before the agent is invoked, so the `chat_history` handed to
the agent ends with the raw user question while the `input` field
carries the same question wrapped in the company-context template — the
question reaches the agent twice, in two forms. -/
theorem question_reaches_agent_twice (s : SessionState) (inp : Inputs)
    (ext : ExtCalls) (p : String) (args : String × List Message)
    (hq : inp.chat_input_val = some p)
    (h : (runScript s inp ext).invokeCalled = some args) :
    (∃ pre, args.2 = pre ++ [Message.mk "user" p])
    ∧ args.1 = prompt_aumentado inp.regime_tributario inp.faturamento_anual inp.cnae p
    ∧ StrContains args.1 p := by
  unfold runScript at h
  obtain ⟨q, pre, hq', h1, h2⟩ := runMain_invoke_spec _ _ inp ext args h
  have hpq : some p = some q := hq ▸ hq'
  obtain rfl : p = q := Option.some_inj.mp hpq
  exact ⟨⟨pre, h2⟩, h1, by rw [h1]; exact (prompt_aumentado_parts _ _ _ _).2.2.2⟩

/-- Witness for C10: the `inpChat2` interaction from `sBase` invokes the
agent with `argsW2`, whose history ends with the raw question. -/
theorem question_reaches_agent_twice_witness :
    inpChat2.chat_input_val = some "Quanto devo de imposto?"
    ∧ (runScript sBase inpChat2 extOk).invokeCalled = some argsW2
    ∧ ∃ pre, argsW2.2 = pre ++ [Message.mk "user" "Quanto devo de imposto?"] :=
  ⟨rfl, rfl,
    (question_reaches_agent_twice sBase inpChat2 extOk _ argsW2 rfl rfl).1⟩

/-- C3: evaluation of the script at the two situations where its
control flow contradicts the documented interaction order: (a) from
`sAgent`, where an agent is available and a chat question is pending,
the chat history is not rendered, the question is not forwarded, and
the "please fill in the configuration" notice is shown instead, the
state left untouched; (b) from `sEmpty`, with no API keys and no
dataframe, the agent-initialisation block nevertheless runs. -/
theorem chat_skipped_when_agent_available :
    ((runScript sAgent inpChat extOk).chatHistoryRendered = none
      ∧ (runScript sAgent inpChat extOk).invokeCalled = none
      ∧ (runScript sAgent inpChat extOk).infoShown = true
      ∧ (runScript sAgent inpChat extOk).dashboardShown = true
      ∧ (runScript sAgent inpChat extOk).state = sAgent)
    ∧ ((runScript sEmpty inpIdle extOk).agentInitAttempted = true
      ∧ (runScript sEmpty inpIdle extOk).dashboardShown = false) := by
  decide
